import Mathlib

/-!
Verification development for the LEO timeseries pipeline.

This file embeds the two scripts that carry the core logic of the
repository:

* `scripts/convert_orbit_engine_to_timeseries.py` — building the canonical
  timeline and visibility index (`build_time_index`), reconstructing the
  dense per-satellite series (`generate_full_orbit_timeseries`) and
  verifying coverage (`verify_coverage`);
* `scripts/integrate_stage5_signal_data.py` — aligning the dense positional
  series with the Stage 5 signal-quality series
  (`integrate_signal_quality`, `match_timestamps`).

Modelling conventions:

* Python floats are modelled as exact rationals (`ℚ`); `round(x, 2)` is
  modelled as round-half-to-even at two decimals (`round2`).
* Timestamp strings and satellite ids stay `String`s, compared exactly as
  the code compares them; parsing a timestamp string to an absolute number
  of seconds (`datetime.fromisoformat` / `dateutil.parser.parse`) is kept
  abstract as a function parameter (`toTime` for the converter, which
  assumes parseability, and `parse : String → Option ℤ` for the fuzzy
  matcher, where `none` models a parse failure caught by the bare
  `except`).
* Python dictionaries are modelled by association lists together with
  explicit "last write wins" lookup functions that mirror the insertion
  order of the loops that build them.
* A Python function that can raise is modelled with an `Option` layer
  whose `none` stands for the uncaught exception.
-/

namespace LeoSim

/-! ### Input data model (orbit-engine Stage 4 pool entries) -/

/-- One `visibility_metrics` sub-record of a sparse Stage 4 sample.
`is_connectable` is kept as the raw string the code compares against
`'True'`. -/
structure VisibilityMetrics where
  elevation_deg : ℚ
  azimuth_deg : ℚ
  distance_km : ℚ
  is_connectable : String
deriving DecidableEq, Repr

/-- One sparse sample of a satellite's `time_series`. -/
structure SamplePoint where
  timestamp : String
  visibility_metrics : VisibilityMetrics
deriving DecidableEq, Repr

/-- One satellite of the optimized pool. -/
structure SatInput where
  satellite_id : String
  sat_name : String
  time_series : List SamplePoint
deriving DecidableEq, Repr

/-- The value stored in the visibility index for a (timestamp, satellite)
pair, mirroring the dict built in `build_time_index`. -/
structure VisData where
  elevation_deg : ℚ
  azimuth_deg : ℚ
  distance_km : ℚ
  is_visible : Bool
deriving DecidableEq, Repr

/-- The dict value written by `build_time_index` for one sample:
`is_visible` is the string comparison `is_connectable == 'True'`. -/
def mkVis (p : SamplePoint) : VisData :=
  { elevation_deg := p.visibility_metrics.elevation_deg
    azimuth_deg := p.visibility_metrics.azimuth_deg
    distance_km := p.visibility_metrics.distance_km
    is_visible := decide (p.visibility_metrics.is_connectable = "True") }

/-! ### build_time_index -/

/-- All timestamps occurring in the pool, in iteration order. -/
def allTimestamps : List SatInput → List String
  | [] => []
  | s :: ss => s.time_series.map (fun p => p.timestamp) ++ allTimestamps ss

/-- Lexicographic comparison of strings by code points, the order Python
uses when sorting timestamp strings. -/
def strLeAux : List Char → List Char → Bool
  | [], _ => true
  | _ :: _, [] => false
  | a :: as, b :: bs => if a = b then strLeAux as bs else decide (a.val < b.val)

/-- String comparison used by `sorted(...)`. -/
def strLe (a b : String) : Bool := strLeAux a.data b.data

/-- Insertion into a sorted list. -/
def insertSorted (x : String) : List String → List String
  | [] => [x]
  | y :: ys => if strLe x y then x :: y :: ys else y :: insertSorted x ys

/-- Insertion sort; models Python's `sorted`. -/
def sortStrings (l : List String) : List String := l.foldr insertSorted []

/-- `time_points = sorted(all_timestamps)` where `all_timestamps` is a set:
deduplicate, then sort. -/
def build_time_points (pool : List SatInput) : List String :=
  sortStrings (allTimestamps pool).eraseDup

/-- Scan of one satellite's `time_series`, threading the accumulator so
that a later sample with the same timestamp overwrites an earlier one,
exactly like the dict assignment in `build_time_index`. -/
def lookupSeries (ts : String) : List SamplePoint → Option VisData → Option VisData
  | [], acc => acc
  | p :: ps, acc =>
      lookupSeries ts ps (if p.timestamp = ts then some (mkVis p) else acc)

/-- Scan of the whole pool in iteration order. -/
def lookupPool (ts sid : String) : List SatInput → Option VisData → Option VisData
  | [], acc => acc
  | s :: ss, acc =>
      lookupPool ts sid ss
        (if s.satellite_id = sid then lookupSeries ts s.time_series acc else acc)

/-- The two-level index `visibility_index[timestamp][sat_id]` built by
`build_time_index`, as a lookup function. -/
def visibility_index (pool : List SatInput) (ts sid : String) : Option VisData :=
  lookupPool ts sid pool none

/-! ### Rounding -/

/-- Round a rational to the nearest integer, ties to even — the rounding
mode of Python's `round`. -/
def roundHalfEven (q : ℚ) : ℤ :=
  let f : ℤ := Rat.floor q
  let r : ℚ := q - (f : ℚ)
  if r < 1/2 then f
  else if 1/2 < r then f + 1
  else if f % 2 = 0 then f else f + 1

/-- `round(x, 2)`. -/
def round2 (q : ℚ) : ℚ := ((roundHalfEven (q * 100) : ℤ) : ℚ) / 100

/-! ### generate_full_orbit_timeseries -/

/-- One dense output record of `position_timeseries`. -/
structure PosRecord where
  time : String
  time_offset_seconds : ℤ
  elevation_deg : ℚ
  azimuth_deg : ℚ
  range_km : ℚ
  is_visible : Bool
deriving DecidableEq, Repr

/-- The per-satellite `config` block. -/
structure SatConfig where
  min_elevation_deg : ℚ
  time_step_seconds : ℤ
  time_points : ℕ
deriving DecidableEq, Repr

/-- The per-satellite `statistics` block. -/
structure SatStats where
  visible_points : ℕ
  visible_percentage : ℚ
  max_elevation : ℚ
deriving DecidableEq, Repr

/-- One satellite of the converter's output. -/
structure SatOutput where
  id : String
  sat_name : String
  constellation : String
  config : SatConfig
  statistics : SatStats
  position_timeseries : List PosRecord
deriving DecidableEq, Repr

/-- Step duration: delta of the first two timestamps, else the fixed
default of 30 seconds.  `toTime` models `datetime.fromisoformat` returning
whole seconds. -/
def timeStepOf (toTime : String → ℤ) : List String → ℤ
  | t0 :: t1 :: _ => toTime t1 - toTime t0
  | _ => 30

/-- The record emitted when the satellite is present in the index. -/
def visibleRecord (ts : String) (off : ℤ) (v : VisData) : PosRecord :=
  { time := ts
    time_offset_seconds := off
    elevation_deg := round2 v.elevation_deg
    azimuth_deg := round2 v.azimuth_deg
    range_km := round2 v.distance_km
    is_visible := true }

/-- The sentinel record emitted when the satellite is absent from the
index at a timestamp. -/
def sentinelRecord (ts : String) (off : ℤ) : PosRecord :=
  { time := ts
    time_offset_seconds := off
    elevation_deg := -90
    azimuth_deg := 0
    range_km := 9999
    is_visible := false }

/-- The inner loop over `enumerate(time_points)` for one satellite:
returns the dense series together with the `visible_count` and
`max_elevation` accumulators (which start at `0` and `0.0`). -/
def densify (lookup : String → String → Option VisData) (sid : String) (step : ℤ) :
    List String → ℕ → ℕ → ℚ → List PosRecord × ℕ × ℚ
  | [], _, cnt, mx => ([], cnt, mx)
  | ts :: rest, i, cnt, mx =>
    match lookup ts sid with
    | some v =>
        let out := densify lookup sid step rest (i + 1) (cnt + 1) (max mx v.elevation_deg)
        (visibleRecord ts ((i : ℤ) * step) v :: out.1, out.2)
    | none =>
        let out := densify lookup sid step rest (i + 1) cnt mx
        (sentinelRecord ts ((i : ℤ) * step) :: out.1, out.2)

/-- The body of the per-satellite loop of `generate_full_orbit_timeseries`. -/
def processSat (lookup : String → String → Option VisData) (tps : List String)
    (step : ℤ) (sat : SatInput) : SatOutput :=
  let d := densify lookup sat.satellite_id step tps 0 0 0
  let pct : ℚ := if 0 < tps.length then (d.2.1 : ℚ) / (tps.length : ℚ) * 100 else 0
  { id := sat.satellite_id
    sat_name := sat.sat_name
    constellation := "starlink"
    config := { min_elevation_deg := 5, time_step_seconds := step, time_points := tps.length }
    statistics :=
      { visible_points := d.2.1
        visible_percentage := round2 pct
        max_elevation := round2 d.2.2 }
    position_timeseries := d.1 }

/-- `generate_full_orbit_timeseries`: returns
`(satellites_data, time_step_seconds, len(time_points))`. -/
def generate_full_orbit_timeseries (toTime : String → ℤ) (pool : List SatInput)
    (time_points : List String) (lookup : String → String → Option VisData) :
    List SatOutput × ℤ × ℕ :=
  let step := timeStepOf toTime time_points
  (pool.map (processSat lookup time_points step), step, time_points.length)

/-- The composition performed by `main`: build the index, then
reconstruct. -/
def convert (toTime : String → ℤ) (pool : List SatInput) : List SatOutput × ℤ × ℕ :=
  generate_full_orbit_timeseries toTime pool (build_time_points pool) (visibility_index pool)

/-! ### verify_coverage -/

/-- The dict returned by `verify_coverage` on the happy path. -/
structure CoverageStats where
  avg_visible : ℚ
  min_visible : ℕ
  max_visible : ℕ
  target_met_rate : ℚ
deriving DecidableEq, Repr

/-- `sum(1 for sat in satellites_data if sat['position_timeseries'][i]['is_visible'])`;
`none` models the `IndexError` raised when some series is too short. -/
def countVisibleAtE : List SatOutput → ℕ → Option ℕ
  | [], _ => some 0
  | s :: rest, i =>
    match s.position_timeseries.get? i, countVisibleAtE rest i with
    | some p, some n => some ((if p.is_visible then 1 else 0) + n)
    | _, _ => none

/-- The `visible_counts` list accumulated over `range(total_time_points)`. -/
def optCounts (sats : List SatOutput) : List ℕ → Option (List ℕ)
  | [] => some []
  | i :: idxs =>
    match countVisibleAtE sats i, optCounts sats idxs with
    | some c, some cs => some (c :: cs)
    | _, _ => none

/-- `verify_coverage`.  The outer `Option` layer models an uncaught
exception (`ZeroDivisionError` when `visible_counts` is empty, or an
`IndexError` inside the counting loop); `some none` models the early
`return None` taken when `satellites_data` is empty; `some (some r)` is
the returned statistics dict.  The second argument mirrors the unused
`time_step_seconds` parameter. -/
def verify_coverage (sats : List SatOutput) (_time_step_seconds : ℤ) :
    Option (Option CoverageStats) :=
  match sats with
  | [] => some none
  | s0 :: rest =>
    match optCounts (s0 :: rest) (List.range s0.config.time_points) with
    | none => none
    | some [] => none
    | some (c :: cs) =>
        some (some
          { avg_visible := (((c :: cs).foldl (fun a b => a + b) 0 : ℕ) : ℚ) /
              (((c :: cs).length : ℕ) : ℚ)
            min_visible := cs.foldl min c
            max_visible := cs.foldl max c
            target_met_rate :=
              (((c :: cs).filter (fun k => decide (10 ≤ k ∧ k ≤ 15))).length : ℚ) /
                ((s0.config.time_points : ℕ) : ℚ) })

/-! ### Spec-side helper functions used in theorem statements -/

/-- Positional map, used both to state the all-sentinel series of C2 and
to build connectable-flag reassignments for C10. -/
def mapIdxAux {α β : Type} (f : ℕ → α → β) : ℕ → List α → List β
  | _, [] => []
  | i, a :: as => f i a :: mapIdxAux f (i + 1) as

/-- Replace the `is_connectable` flag of one sample. -/
def connPoint (g : ℕ → String) (j : ℕ) (p : SamplePoint) : SamplePoint :=
  { p with visibility_metrics :=
      { p.visibility_metrics with is_connectable := g j } }

/-- Replace every `is_connectable` flag of one satellite's series. -/
def connSat (f : ℕ → ℕ → String) (k : ℕ) (s : SatInput) : SatInput :=
  { s with time_series := mapIdxAux (connPoint (f k)) 0 s.time_series }

/-- Replace every `is_connectable` flag in the pool according to an
arbitrary reassignment `f` of (satellite position, sample position).  Two
pools that differ only in their connectable flags are exactly a pool and
its image under some `setConn f`. -/
def setConn (f : ℕ → ℕ → String) (pool : List SatInput) : List SatInput :=
  mapIdxAux (connSat f) 0 pool

/-- The fields of an index entry that `generate_full_orbit_timeseries`
actually reads (everything except the stored `is_visible` flag). -/
def visCore (v : VisData) : ℚ × ℚ × ℚ := (v.elevation_deg, v.azimuth_deg, v.distance_km)

/-- Fold of `max` over the raw elevations of the samples the index holds
for `sid` along the timeline, mirroring the `max_elevation` accumulator. -/
def maxElevFold (lookup : String → String → Option VisData) (sid : String)
    (tps : List String) (mx : ℚ) : ℚ :=
  tps.foldl (fun m ts =>
    match lookup ts sid with
    | some v => max m v.elevation_deg
    | none => m) mx

/-- Independent per-timestep visible count used to state coverage
consistency: the number of satellites whose record at position `i` has
`is_visible = true`. -/
def visibleCountAt (sats : List SatOutput) (i : ℕ) : ℕ :=
  sats.countP (fun s => ((s.position_timeseries.get? i).map (fun p => p.is_visible)).getD false)

/-! ### Stage 5 integration data model -/

/-- The `signal_quality` sub-record; `none` fields model JSON `null`. -/
structure SignalQuality where
  rsrp_dbm : Option ℚ
  rsrq_db : Option ℚ
  rs_sinr_db : Option ℚ
deriving DecidableEq, Repr

/-- The unavailable sentinel: all fields `null`. -/
def nullQuality : SignalQuality := ⟨none, none, none⟩

/-- One Stage 5 `time_series` sample. -/
structure Stage5Point where
  timestamp : String
  signal_quality : SignalQuality
deriving DecidableEq, Repr

/-- One record of the primary (Stage 4) dense series as consumed by the
integrator; `signal_quality = none` models the absence of the key. -/
structure EnhRecord where
  time : String
  time_offset_seconds : ℤ
  elevation_deg : ℚ
  azimuth_deg : ℚ
  range_km : ℚ
  is_visible : Bool
  signal_quality : Option SignalQuality
deriving DecidableEq, Repr

/-- One satellite of the primary series (only the fields the integrator
touches). -/
structure EnhSat where
  id : String
  position_timeseries : List EnhRecord
deriving DecidableEq, Repr

/-- Dict insertion `d[ts] = p`: overwrite in place if the key exists
(keeping its position), else append. -/
def upsert (acc : List (String × Stage5Point)) (p : Stage5Point) :
    List (String × Stage5Point) :=
  if acc.any (fun q => q.1 = p.timestamp) then
    acc.map (fun q => if q.1 = p.timestamp then (q.1, p) else q)
  else acc ++ [(p.timestamp, p)]

/-- The per-satellite timestamp index `stage5_index[sat_id]`, an insertion
-ordered dict over the satellite's `time_series`. -/
def buildEntityIndex (pts : List Stage5Point) : List (String × Stage5Point) :=
  pts.foldl upsert []

/-- Lookup in the `signal_data` dict: last binding of a key wins. -/
def lastAssoc (l : List (String × List Stage5Point)) (k : String) :
    Option (List Stage5Point) :=
  l.foldl (fun acc q => if q.1 = k then some q.2 else acc) none

/-- `match_timestamps`: parse both timestamps and compare the absolute
difference against the 30-second tolerance; any parse failure is caught
and yields `False`. -/
def match_timestamps (parse : String → Option ℤ) (s4 s5 : String) : Bool :=
  match parse s4, parse s5 with
  | some a, some b => decide ((a - b).natAbs ≤ 30)
  | _, _ => false

/-- Exact string lookup `stage5_index[sat_id][stage4_ts]`. -/
def exactLookup (idx : List (String × Stage5Point)) (ts : String) : Option Stage5Point :=
  (idx.find? (fun q => q.1 == ts)).map (fun q => q.2)

/-- The per-record body of the integration loop: non-visible records get
the sentinel; visible records try the exact match, then the first fuzzy
match in index iteration order, then the sentinel. -/
def assignQuality (parse : String → Option ℤ) (idx : List (String × Stage5Point))
    (p : EnhRecord) : EnhRecord :=
  if p.is_visible = false then { p with signal_quality := some nullQuality }
  else
    match exactLookup idx p.time with
    | some sp => { p with signal_quality := some sp.signal_quality }
    | none =>
      match idx.find? (fun q => match_timestamps parse p.time q.1) with
      | some q => { p with signal_quality := some q.2.signal_quality }
      | none => { p with signal_quality := some nullQuality }

/-- `integrate_signal_quality`: satellites absent from `signal_data` are
skipped unchanged (the `continue` branch); all others get every record of
their series processed by `assignQuality`. -/
def integrate_signal_quality (parse : String → Option ℤ) (sats : List EnhSat)
    (signal_data : List (String × List Stage5Point)) : List EnhSat :=
  sats.map (fun sat =>
    match lastAssoc signal_data sat.id with
    | none => sat
    | some pts =>
        { sat with position_timeseries :=
            sat.position_timeseries.map (assignQuality parse (buildEntityIndex pts)) })

/-! ### Concrete instances used by witnesses and counterexamples -/

/-- Concrete timestamp-to-seconds function for witnesses. -/
def wToTime : String → ℤ := fun s =>
  if s = "T0" then 0 else if s = "T30" then 30 else if s = "T60" then 60 else 0

/-- Concrete canonical timeline for witnesses. -/
def wTps : List String := ["T0", "T30", "T60"]

/-- Concrete index entry for witnesses. -/
def wVis : VisData :=
  { elevation_deg := 10, azimuth_deg := 20, distance_km := 500, is_visible := true }

/-- Concrete index for witnesses: satellite `A` is observed at `T0` and
`T60`; satellite `B` is never observed. -/
def wLookup : String → String → Option VisData := fun ts sid =>
  if sid = "A" ∧ (ts = "T0" ∨ ts = "T60") then some wVis else none

/-- Concrete pool entry `A`. -/
def wSatA : SatInput := { satellite_id := "A", sat_name := "SatA", time_series := [] }

/-- Concrete pool entry `B`. -/
def wSatB : SatInput := { satellite_id := "B", sat_name := "SatB", time_series := [] }

/-- Concrete pool for witnesses. -/
def wPool : List SatInput := [wSatA, wSatB]

/-- Expected dense output for `A`: visible at timeline positions 0 and 2,
`visible_percentage = round(200/3, 2) = 66.67`. -/
def wOutA : SatOutput :=
  { id := "A", sat_name := "SatA", constellation := "starlink"
    config := ⟨5, 30, 3⟩
    statistics := ⟨2, 6667/100, 10⟩
    position_timeseries :=
      [⟨"T0", 0, 10, 20, 500, true⟩, ⟨"T30", 30, -90, 0, 9999, false⟩,
       ⟨"T60", 60, 10, 20, 500, true⟩] }

/-- Expected dense output for `B`: all-sentinel. -/
def wOutB : SatOutput :=
  { id := "B", sat_name := "SatB", constellation := "starlink"
    config := ⟨5, 30, 3⟩
    statistics := ⟨0, 0, 0⟩
    position_timeseries :=
      [⟨"T0", 0, -90, 0, 9999, false⟩, ⟨"T30", 30, -90, 0, 9999, false⟩,
       ⟨"T60", 60, -90, 0, 9999, false⟩] }

/-- Parse function under which no timestamp parses (irrelevant to the C3
inputs, which never reach fuzzy matching). -/
def c3parse : String → Option ℤ := fun _ => none

/-- Non-visible primary record with no `signal_quality` key. -/
def c3rec : EnhRecord := ⟨"T0", 0, -90, 0, 9999, false, none⟩

/-- Primary satellite `S1`, absent from the secondary source. -/
def c3sat : EnhSat := ⟨"S1", [c3rec]⟩

/-- Secondary source containing only satellite `S2`. -/
def c3sd : List (String × List Stage5Point) :=
  [("S2", [⟨"T0", ⟨some (-70), some (-9), some 20⟩⟩])]

/-- Non-visible primary record for the amended-C3 witness. -/
def c3brec : EnhRecord := ⟨"T0", 0, -90, 0, 9999, false, none⟩

/-- Primary satellite `S`, present in the secondary source. -/
def c3bsat : EnhSat := ⟨"S", [c3brec]⟩

/-- Secondary source that does hold a (non-null) quality for `S` at the
very same timestamp — it must still be ignored for non-visible records. -/
def c3bsd : List (String × List Stage5Point) :=
  [("S", [⟨"T0", ⟨some (-70), some (-9), some 20⟩⟩])]

/-- Parse function for the first-match witness: `T` is at second 1000,
`T10` at 1010, `T5` at 1005. -/
def c4parse : String → Option ℤ := fun s =>
  if s = "T" then some 1000 else if s = "T10" then some 1010
  else if s = "T5" then some 1005 else none

/-- Quality carried by the `T+10s` candidate. -/
def c4q10 : SignalQuality := ⟨some (-80), some (-10), some 15⟩

/-- Quality carried by the `T+5s` candidate. -/
def c4q5 : SignalQuality := ⟨some (-90), some (-12), some 9⟩

/-- Visible primary record at `T`. -/
def c4rec : EnhRecord := ⟨"T", 0, 45, 180, 550, true, none⟩

/-- Primary satellite for the first-match witness. -/
def c4sat : EnhSat := ⟨"S", [c4rec]⟩

/-- Secondary samples in scan order `T+10s` before `T+5s`; both are within
the 30-second tolerance, `T+5s` is nearer. -/
def c4pts : List Stage5Point := [⟨"T10", c4q10⟩, ⟨"T5", c4q5⟩]

/-- Secondary source for the first-match witness. -/
def c4sd : List (String × List Stage5Point) := [("S", c4pts)]

/-- A reconstructed satellite whose timeline length is zero (produced by
the pipeline whenever the pool is non-empty but no satellite has any
sample): feeding it to `verify_coverage` divides by `len([])`. -/
def c5degen : SatOutput := ⟨"X", "SatX", "starlink", ⟨5, 30, 0⟩, ⟨0, 0, 0⟩, []⟩

/-- Timestamp parser for the C7 counterexample (single timestamp, value
irrelevant). -/
def c7toTime : String → ℤ := fun _ => 0

/-- Pool with one satellite observed once with a negative raw elevation. -/
def c7pool : List SatInput := [⟨"S", "SatS", [⟨"TT", ⟨-10, 5, 100, "True"⟩⟩]⟩]

/-! ### Helper lemmas about `densify` and `generate_full_orbit_timeseries` -/

theorem densify_length (lookup : String → String → Option VisData) (sid : String)
    (step : ℤ) (tps : List String) : ∀ (i cnt : ℕ) (mx : ℚ),
    (densify lookup sid step tps i cnt mx).1.length = tps.length := by
  induction tps with
  | nil => intro i cnt mx; rfl
  | cons ts rest ih =>
      intro i cnt mx
      cases h : lookup ts sid with
      | some v => simp [densify, h, ih]
      | none => simp [densify, h, ih]

theorem densify_get (lookup : String → String → Option VisData) (sid : String)
    (step : ℤ) (tps : List String) : ∀ (i0 cnt : ℕ) (mx : ℚ) (i : ℕ) (ts : String),
    tps.get? i = some ts →
    (densify lookup sid step tps i0 cnt mx).1.get? i =
      some (match lookup ts sid with
            | some v => visibleRecord ts (((i0 + i : ℕ) : ℤ) * step) v
            | none => sentinelRecord ts (((i0 + i : ℕ) : ℤ) * step)) := by
  induction tps with
  | nil => intro i0 cnt mx i ts h; simp at h
  | cons t rest ih =>
      intro i0 cnt mx i ts h
      cases i with
      | zero =>
          rw [List.get?_cons_zero] at h
          injection h with h
          subst h
          cases hl : lookup t sid with
          | some v => simp [densify, hl]
          | none => simp [densify, hl]
      | succ i' =>
          rw [List.get?_cons_succ] at h
          have e : i0 + 1 + i' = i0 + (i' + 1) := by omega
          cases hl : lookup t sid with
          | some v =>
              have hrec := ih (i0 + 1) (cnt + 1) (max mx v.elevation_deg) i' ts h
              rw [e] at hrec
              simpa [densify, hl] using hrec
          | none =>
              have hrec := ih (i0 + 1) cnt mx i' ts h
              rw [e] at hrec
              simpa [densify, hl] using hrec

theorem densify_time (lookup : String → String → Option VisData) (sid : String)
    (step : ℤ) (tps : List String) : ∀ (i0 cnt : ℕ) (mx : ℚ) (i : ℕ),
    ((densify lookup sid step tps i0 cnt mx).1.get? i).map (fun r => r.time) =
      tps.get? i := by
  induction tps with
  | nil => intro i0 cnt mx i; simp [densify]
  | cons t rest ih =>
      intro i0 cnt mx i
      cases i with
      | zero =>
          cases hl : lookup t sid with
          | some v => simp [densify, hl, visibleRecord]
          | none => simp [densify, hl, sentinelRecord]
      | succ i' =>
          cases hl : lookup t sid with
          | some v => simp only [densify, hl]; rw [List.get?_cons_succ, List.get?_cons_succ]; exact ih ..
          | none => simp only [densify, hl]; rw [List.get?_cons_succ, List.get?_cons_succ]; exact ih ..

theorem densify_max (lookup : String → String → Option VisData) (sid : String)
    (step : ℤ) (tps : List String) : ∀ (i0 cnt : ℕ) (mx : ℚ),
    (densify lookup sid step tps i0 cnt mx).2.2 = maxElevFold lookup sid tps mx := by
  induction tps with
  | nil => intro i0 cnt mx; rfl
  | cons t rest ih =>
      intro i0 cnt mx
      cases hl : lookup t sid with
      | some v => simp [densify, hl, maxElevFold, List.foldl_cons] at ih ⊢; rw [ih]
      | none => simp [densify, hl, maxElevFold, List.foldl_cons] at ih ⊢; rw [ih]

theorem densify_all_none (lookup : String → String → Option VisData) (sid : String)
    (step : ℤ) : ∀ (tps : List String), (∀ ts ∈ tps, lookup ts sid = none) →
    ∀ (i0 cnt : ℕ) (mx : ℚ),
    densify lookup sid step tps i0 cnt mx =
      (mapIdxAux (fun i ts => sentinelRecord ts ((i : ℤ) * step)) i0 tps, cnt, mx) := by
  intro tps
  induction tps with
  | nil => intro _ i0 cnt mx; rfl
  | cons t rest ih =>
      intro h i0 cnt mx
      have ht : lookup t sid = none := h t (by simp)
      simp only [densify, ht, mapIdxAux]
      rw [ih (fun ts hts => h ts (by simp [hts]))]

theorem maxElevFold_all_none (lookup : String → String → Option VisData) (sid : String) :
    ∀ (tps : List String), (∀ ts ∈ tps, lookup ts sid = none) →
    ∀ (mx : ℚ), maxElevFold lookup sid tps mx = mx := by
  intro tps
  induction tps with
  | nil => intro _ mx; rfl
  | cons t rest ih =>
      intro h mx
      have ht : lookup t sid = none := h t (by simp)
      simp [maxElevFold, List.foldl_cons, ht] at ih ⊢
      exact ih (fun ts hts => h ts (by simp [hts])) mx

theorem round2_zero : round2 0 = 0 := by with_unfolding_all rfl

theorem generate_get (toTime : String → ℤ) (pool : List SatInput) (tps : List String)
    (lookup : String → String → Option VisData) (k : ℕ) (sat : SatInput) (o : SatOutput)
    (hk : pool.get? k = some sat)
    (ho : (generate_full_orbit_timeseries toTime pool tps lookup).1.get? k = some o) :
    o = processSat lookup tps (timeStepOf toTime tps) sat := by
  unfold generate_full_orbit_timeseries at ho
  simp only [List.get?_map, hk, Option.map_some'] at ho
  exact (Option.some.injEq _ _ ▸ ho).symm

/-! ### Claim theorems -/

/-- C1: for every entity and every canonical timestamp,
`generate_full_orbit_timeseries` emits at that timestamp's position a
record with the indexed sample's elevation/azimuth/range rounded to two
decimals and `visible = true` when the entity has a sample at that
timestamp in the index, and exactly the sentinel record
(elevation `-90.0`, azimuth `0.0`, range `9999.0`, `visible = false`)
otherwise. -/
theorem C1_dense_roundtrip (toTime : String → ℤ) (pool : List SatInput)
    (tps : List String) (lookup : String → String → Option VisData)
    (k : ℕ) (sat : SatInput) (o : SatOutput) (i : ℕ) (ts : String)
    (hk : pool.get? k = some sat)
    (ho : (generate_full_orbit_timeseries toTime pool tps lookup).1.get? k = some o)
    (hts : tps.get? i = some ts) :
    (∀ v, lookup ts sat.satellite_id = some v →
      o.position_timeseries.get? i = some
        { time := ts
          time_offset_seconds := (i : ℤ) * timeStepOf toTime tps
          elevation_deg := round2 v.elevation_deg
          azimuth_deg := round2 v.azimuth_deg
          range_km := round2 v.distance_km
          is_visible := true }) ∧
    (lookup ts sat.satellite_id = none →
      o.position_timeseries.get? i = some
        { time := ts
          time_offset_seconds := (i : ℤ) * timeStepOf toTime tps
          elevation_deg := -90
          azimuth_deg := 0
          range_km := 9999
          is_visible := false }) := by
  have hps := generate_get toTime pool tps lookup k sat o hk ho
  subst hps
  have hget := densify_get lookup sat.satellite_id (timeStepOf toTime tps) tps 0 0 0 i ts hts
  constructor
  · intro v hv
    rw [hv] at hget
    simpa [processSat, visibleRecord] using hget
  · intro hv
    rw [hv] at hget
    simpa [processSat, sentinelRecord] using hget

/-- C1 witness: in the concrete pool, satellite `A` has a sample at `T0`
(emitted rounded with `visible = true`) and none at `T30` (emitted as the
sentinel). -/
theorem C1_dense_roundtrip_witness :
    wOutA.position_timeseries.get? 0 = some ⟨"T0", 0, 10, 20, 500, true⟩ ∧
    wOutA.position_timeseries.get? 1 = some ⟨"T30", 30, -90, 0, 9999, false⟩ := by
  have h0 := C1_dense_roundtrip wToTime wPool wTps wLookup 0 wSatA wOutA 0 "T0"
    rfl (by with_unfolding_all rfl) rfl
  have h1 := C1_dense_roundtrip wToTime wPool wTps wLookup 0 wSatA wOutA 1 "T30"
    rfl (by with_unfolding_all rfl) rfl
  refine ⟨?_, ?_⟩
  · exact (h0.1 wVis (by with_unfolding_all rfl)).trans (by with_unfolding_all rfl)
  · exact (h1.2 (by with_unfolding_all rfl)).trans (by with_unfolding_all rfl)

/-- C2: the reconstruction never drops an entity (one output per pool
entry, ids preserved), every dense series has exactly one record per
canonical timestamp (same length, matching timestamp at every position),
and an entity with zero indexed samples yields a full-length all-sentinel
series with `visible_points = 0`, `visible_percentage = 0.0` and
`max_elevation = 0.0`. -/
theorem C2_no_entity_dropped (toTime : String → ℤ) (pool : List SatInput)
    (tps : List String) (lookup : String → String → Option VisData) :
    (generate_full_orbit_timeseries toTime pool tps lookup).1.length = pool.length ∧
    ∀ k sat o, pool.get? k = some sat →
      (generate_full_orbit_timeseries toTime pool tps lookup).1.get? k = some o →
      o.id = sat.satellite_id ∧
      o.position_timeseries.length = tps.length ∧
      (∀ i, (o.position_timeseries.get? i).map (fun r => r.time) = tps.get? i) ∧
      ((∀ ts ∈ tps, lookup ts sat.satellite_id = none) →
        o.statistics = ⟨0, 0, 0⟩ ∧
        o.position_timeseries =
          mapIdxAux (fun i ts => sentinelRecord ts ((i : ℤ) * timeStepOf toTime tps)) 0 tps) := by
  constructor
  · simp [generate_full_orbit_timeseries]
  · intro k sat o hk ho
    have hps := generate_get toTime pool tps lookup k sat o hk ho
    subst hps
    refine ⟨rfl, ?_, ?_, ?_⟩
    · simpa [processSat] using densify_length lookup sat.satellite_id
        (timeStepOf toTime tps) tps 0 0 0
    · intro i
      simpa [processSat] using densify_time lookup sat.satellite_id
        (timeStepOf toTime tps) tps 0 0 0 i
    · intro hnone
      have hd := densify_all_none lookup sat.satellite_id (timeStepOf toTime tps) tps hnone 0 0 0
      constructor
      · simp only [processSat, hd]
        have hpct : (if 0 < tps.length then ((0 : ℕ) : ℚ) / (tps.length : ℚ) * 100 else 0) = 0 := by
          split <;> simp
        simp [hpct, round2_zero]
      · simp [processSat, hd]

/-- C2 witness: the concrete pool of two satellites yields two outputs;
satellite `B` has no indexed sample and reconstructs to the all-sentinel
series with zero statistics. -/
theorem C2_no_entity_dropped_witness :
    (generate_full_orbit_timeseries wToTime wPool wTps wLookup).1.length = 2 ∧
    wOutB.statistics = ⟨0, 0, 0⟩ ∧
    wOutB.position_timeseries =
      mapIdxAux (fun i ts => sentinelRecord ts ((i : ℤ) * timeStepOf wToTime wTps)) 0 wTps := by
  have h := C2_no_entity_dropped wToTime wPool wTps wLookup
  have hb := h.2 1 wSatB wOutB rfl (by with_unfolding_all rfl)
  have hz := hb.2.2.2 (by with_unfolding_all decide)
  exact ⟨h.1.trans (by rfl), hz.1, hz.2⟩

/-- C7 (amended): the reported `max_elevation` equals the two-decimal
rounding of the fold of `max` over the entity's raw indexed elevations
seeded with `0.0` (that is, `max(0.0, visible elevations)`); in
particular it is `0.0` when the entity has no visible entry, and sentinel
elevations never contribute. -/
theorem C7_max_elevation_seeded (toTime : String → ℤ) (pool : List SatInput)
    (tps : List String) (lookup : String → String → Option VisData)
    (k : ℕ) (sat : SatInput) (o : SatOutput)
    (hk : pool.get? k = some sat)
    (ho : (generate_full_orbit_timeseries toTime pool tps lookup).1.get? k = some o) :
    o.statistics.max_elevation = round2 (maxElevFold lookup sat.satellite_id tps 0) ∧
    ((∀ ts ∈ tps, lookup ts sat.satellite_id = none) → o.statistics.max_elevation = 0) := by
  have hps := generate_get toTime pool tps lookup k sat o hk ho
  subst hps
  have hmx := densify_max lookup sat.satellite_id (timeStepOf toTime tps) tps 0 0 0
  constructor
  · simp only [processSat]
    rw [hmx]
  · intro hnone
    simp only [processSat]
    rw [hmx, maxElevFold_all_none lookup sat.satellite_id tps hnone 0, round2_zero]

/-- C7 witness: for the concrete satellite `A` the reported maximum is the
rounded fold over its indexed elevations and evaluates to `10`. -/
theorem C7_max_elevation_seeded_witness :
    wOutA.statistics.max_elevation = round2 (maxElevFold wLookup wSatA.satellite_id wTps 0) ∧
    wOutA.statistics.max_elevation = 10 := by
  have h := C7_max_elevation_seeded wToTime wPool wTps wLookup 0 wSatA wOutA
    rfl (by with_unfolding_all rfl)
  exact ⟨h.1, by with_unfolding_all rfl⟩

/-- C7 counterexample: a satellite whose only (visible) sample has raw
elevation `-10` is reported with `max_elevation = 0.0`, not with the
maximum over its visible entries, which is `-10`. -/
theorem C7_counterexample :
    ((convert c7toTime c7pool).1.map (fun o => o.statistics.max_elevation)) = [0] ∧
    ((convert c7toTime c7pool).1.map
      (fun o => (o.position_timeseries.filter (fun r => r.is_visible)).map
        (fun r => r.elevation_deg))) = [[-10]] ∧
    (0 : ℚ) ≠ -10 := by
  refine ⟨by with_unfolding_all rfl, by with_unfolding_all rfl, by with_unfolding_all decide⟩

/-- C8: the step duration is the delta of the first two timeline entries
(the fixed default `30` when the timeline has fewer than two), and every
dense record's offset equals its index times that inferred step. -/
theorem C8_step_and_offsets (toTime : String → ℤ) (pool : List SatInput)
    (tps : List String) (lookup : String → String → Option VisData) :
    (generate_full_orbit_timeseries toTime pool tps lookup).2.1 = timeStepOf toTime tps ∧
    (∀ t0 t1 rest, tps = t0 :: t1 :: rest → timeStepOf toTime tps = toTime t1 - toTime t0) ∧
    (tps.length < 2 → timeStepOf toTime tps = 30) ∧
    (∀ k o i r, (generate_full_orbit_timeseries toTime pool tps lookup).1.get? k = some o →
      o.position_timeseries.get? i = some r →
      r.time_offset_seconds = (i : ℤ) * timeStepOf toTime tps) := by
  refine ⟨rfl, ?_, ?_, ?_⟩
  · intro t0 t1 rest h
    subst h
    rfl
  · intro h
    match tps with
    | [] => rfl
    | [t] => rfl
    | t0 :: t1 :: rest => simp at h; omega
  · intro k o i r ho hr
    have hmap : (pool.map (processSat lookup tps (timeStepOf toTime tps))).get? k = some o := ho
    rw [List.get?_map] at hmap
    cases hk : pool.get? k with
    | none => rw [hk] at hmap; simp at hmap
    | some sat =>
        rw [hk] at hmap
        simp only [Option.map_some'] at hmap
        injection hmap with hmap
        subst hmap
        have hi : i < tps.length := by
          by_contra hge
          have : tps.get? i = none := List.get?_eq_none.mpr (by omega)
          have hlen := densify_length lookup sat.satellite_id (timeStepOf toTime tps) tps 0 0 0
          have : (processSat lookup tps (timeStepOf toTime tps) sat).position_timeseries.get? i = none := by
            apply List.get?_eq_none.mpr
            simpa [processSat, hlen] using (by omega : tps.length ≤ i)
          rw [this] at hr
          exact Option.noConfusion hr
        obtain ⟨ts, hts⟩ : ∃ ts, tps.get? i = some ts := by
          rw [List.get?_eq_get hi]; exact ⟨_, rfl⟩
        have hget := densify_get lookup sat.satellite_id (timeStepOf toTime tps) tps 0 0 0 i ts hts
        have hr2 : (densify lookup sat.satellite_id (timeStepOf toTime tps) tps 0 0 0).1.get? i = some r := hr
        rw [hget] at hr2
        injection hr2 with hr2
        cases hl : lookup ts sat.satellite_id with
        | some v => rw [hl] at hr2; subst hr2; simp [visibleRecord]
        | none => rw [hl] at hr2; subst hr2; simp [sentinelRecord]

/-- C8 witness: the concrete timeline infers a 30-second step and the
record at position 2 carries offset `2 × 30`. -/
theorem C8_step_and_offsets_witness :
    (generate_full_orbit_timeseries wToTime wPool wTps wLookup).2.1 = 30 ∧
    (⟨"T60", 60, 10, 20, 500, true⟩ : PosRecord).time_offset_seconds =
      (2 : ℤ) * timeStepOf wToTime wTps := by
  have h := C8_step_and_offsets wToTime wPool wTps wLookup
  refine ⟨h.1.trans (by with_unfolding_all rfl), ?_⟩
  exact h.2.2.2 0 wOutA 2 ⟨"T60", 60, 10, 20, 500, true⟩
    (by with_unfolding_all rfl) (by with_unfolding_all rfl)

/-- C9: every output entity carries the hard-coded category tag
`'starlink'`, whatever pool is being processed. -/
theorem C9_constellation_constant (toTime : String → ℤ) (pool : List SatInput)
    (tps : List String) (lookup : String → String → Option VisData)
    (k : ℕ) (o : SatOutput)
    (ho : (generate_full_orbit_timeseries toTime pool tps lookup).1.get? k = some o) :
    o.constellation = "starlink" := by
  have hmap : (pool.map (processSat lookup tps (timeStepOf toTime tps))).get? k = some o := ho
  rw [List.get?_map] at hmap
  cases hk : pool.get? k with
  | none => rw [hk] at hmap; simp at hmap
  | some sat =>
      rw [hk] at hmap
      simp only [Option.map_some'] at hmap
      injection hmap with hmap
      subst hmap
      rfl

/-- C9 witness: concrete output satellite `A` carries the tag. -/
theorem C9_constellation_constant_witness : wOutA.constellation = "starlink" :=
  C9_constellation_constant wToTime wPool wTps wLookup 0 wOutA (by with_unfolding_all rfl)

/-! ### Noninterference of the connectable flag (C10) -/

/-- Agreement of two optional index entries on the fields the
reconstruction reads. -/
def OptVisEq (a b : Option VisData) : Prop := a.map visCore = b.map visCore

theorem connPoint_timestamps (g : ℕ → String) (pts : List SamplePoint) :
    ∀ j, (mapIdxAux (connPoint g) j pts).map (fun p => p.timestamp) =
      pts.map (fun p => p.timestamp) := by
  induction pts with
  | nil => intro j; rfl
  | cons p ps ih => intro j; simp [mapIdxAux, connPoint, ih]

theorem allTimestamps_setConn (f : ℕ → ℕ → String) (pool : List SatInput) :
    ∀ k, allTimestamps (mapIdxAux (connSat f) k pool) = allTimestamps pool := by
  induction pool with
  | nil => intro k; rfl
  | cons s ss ih =>
      intro k
      simp only [mapIdxAux, allTimestamps, connSat, ih]
      rw [connPoint_timestamps]

theorem lookupSeries_conn (ts : String) (g : ℕ → String) (pts : List SamplePoint) :
    ∀ (j : ℕ) (acc1 acc2 : Option VisData), OptVisEq acc1 acc2 →
    OptVisEq (lookupSeries ts (mapIdxAux (connPoint g) j pts) acc1)
      (lookupSeries ts pts acc2) := by
  induction pts with
  | nil => intro j acc1 acc2 h; exact h
  | cons p ps ih =>
      intro j acc1 acc2 h
      simp only [mapIdxAux, lookupSeries]
      apply ih
      by_cases hts : p.timestamp = ts
      · have h2 : (connPoint g j p).timestamp = ts := hts
        rw [if_pos h2, if_pos hts]
        rfl
      · have h2 : ¬(connPoint g j p).timestamp = ts := hts
        rw [if_neg h2, if_neg hts]
        exact h

theorem lookupPool_conn (ts sid : String) (f : ℕ → ℕ → String) (pool : List SatInput) :
    ∀ (k : ℕ) (acc1 acc2 : Option VisData), OptVisEq acc1 acc2 →
    OptVisEq (lookupPool ts sid (mapIdxAux (connSat f) k pool) acc1)
      (lookupPool ts sid pool acc2) := by
  induction pool with
  | nil => intro k a1 a2 h; exact h
  | cons s ss ih =>
      intro k a1 a2 h
      simp only [mapIdxAux, lookupPool]
      apply ih
      by_cases hid : s.satellite_id = sid
      · have h2 : (connSat f k s).satellite_id = sid := hid
        rw [if_pos h2, if_pos hid]
        exact lookupSeries_conn ts (f k) s.time_series 0 a1 a2 h
      · have h2 : ¬(connSat f k s).satellite_id = sid := hid
        rw [if_neg h2, if_neg hid]
        exact h

theorem visibility_index_conn (f : ℕ → ℕ → String) (pool : List SatInput) (ts sid : String) :
    OptVisEq (visibility_index (setConn f pool) ts sid) (visibility_index pool ts sid) :=
  lookupPool_conn ts sid f pool 0 none none rfl

theorem densify_congr (l1 l2 : String → String → Option VisData) (sid : String) (step : ℤ)
    (h : ∀ ts, OptVisEq (l1 ts sid) (l2 ts sid)) (tps : List String) :
    ∀ (i cnt : ℕ) (mx : ℚ),
    densify l1 sid step tps i cnt mx = densify l2 sid step tps i cnt mx := by
  induction tps with
  | nil => intro i cnt mx; rfl
  | cons t rest ih =>
      intro i cnt mx
      have ht := h t
      cases h1 : l1 t sid with
      | none =>
          cases h2 : l2 t sid with
          | none => simp only [densify, h1, h2]; rw [ih]
          | some v2 => exfalso; rw [OptVisEq, h1, h2] at ht; simp at ht
      | some v1 =>
          cases h2 : l2 t sid with
          | none => exfalso; rw [OptVisEq, h1, h2] at ht; simp at ht
          | some v2 =>
              have hcore : visCore v1 = visCore v2 := by
                rw [OptVisEq, h1, h2] at ht; simpa using ht
              have he : v1.elevation_deg = v2.elevation_deg :=
                congrArg (fun c => c.1) hcore
              have ha : v1.azimuth_deg = v2.azimuth_deg :=
                congrArg (fun c => c.2.1) hcore
              have hd : v1.distance_km = v2.distance_km :=
                congrArg (fun c => c.2.2) hcore
              simp only [densify, h1, h2, visibleRecord]
              rw [he, ha, hd, ih]

theorem processSat_conn (l1 l2 : String → String → Option VisData) (tps : List String)
    (step : ℤ) (s1 s2 : SatInput)
    (hid : s1.satellite_id = s2.satellite_id) (hnm : s1.sat_name = s2.sat_name)
    (h : ∀ ts, OptVisEq (l1 ts s2.satellite_id) (l2 ts s2.satellite_id)) :
    processSat l1 tps step s1 = processSat l2 tps step s2 := by
  simp only [processSat, hid, hnm]
  rw [densify_congr l1 l2 s2.satellite_id step h tps 0 0 0]

theorem map_processSat_conn (f : ℕ → ℕ → String) (l1 l2 : String → String → Option VisData)
    (tps : List String) (step : ℤ)
    (h : ∀ ts sid, OptVisEq (l1 ts sid) (l2 ts sid)) (pool : List SatInput) :
    ∀ k, (mapIdxAux (connSat f) k pool).map (processSat l1 tps step) =
      pool.map (processSat l2 tps step) := by
  induction pool with
  | nil => intro k; rfl
  | cons s ss ih =>
      intro k
      simp only [mapIdxAux, List.map_cons, ih]
      congr 1
      exact processSat_conn l1 l2 tps step (connSat f k s) s rfl rfl
        (fun ts => h ts s.satellite_id)

/-- C10: the whole reconstruction pipeline (index building plus dense
reconstruction) is independent of the sparse samples' `is_connectable`
flags: rewriting them arbitrarily leaves the output unchanged. -/
theorem C10_connectable_noninterference (toTime : String → ℤ) (f : ℕ → ℕ → String)
    (pool : List SatInput) :
    convert toTime (setConn f pool) = convert toTime pool := by
  have htps : build_time_points (setConn f pool) = build_time_points pool := by
    unfold build_time_points setConn
    rw [allTimestamps_setConn]
  have hmap := map_processSat_conn f (visibility_index (setConn f pool))
    (visibility_index pool) (build_time_points pool)
    (timeStepOf toTime (build_time_points pool))
    (fun ts sid => visibility_index_conn f pool ts sid) pool 0
  unfold convert generate_full_orbit_timeseries
  rw [htps]
  simp only [setConn] at hmap
  simp only [setConn]
  rw [hmap]

/-! ### Alignment lemmas and claims (C3, C4) -/

theorem find_first {α : Type} (p : α → Bool) (l : List α) :
    ∀ (j : ℕ) (q : α), l.get? j = some q → p q = true →
    (∀ j' q', j' < j → l.get? j' = some q' → p q' = false) →
    l.find? p = some q := by
  induction l with
  | nil => intro j q h; simp at h
  | cons a as ih =>
      intro j q h hp hprev
      cases j with
      | zero =>
          rw [List.get?_cons_zero] at h
          injection h with h
          subst h
          simp [List.find?_cons, hp]
      | succ j' =>
          have ha : p a = false := hprev 0 a (Nat.succ_pos _) rfl
          rw [List.get?_cons_succ] at h
          simp only [List.find?_cons, ha]
          exact ih j' q h hp
            (fun j'' q'' hlt hg => hprev (j'' + 1) q'' (by omega) (by simpa using hg))

theorem integrate_get_skip (parse : String → Option ℤ) (sats : List EnhSat)
    (signal_data : List (String × List Stage5Point)) (k : ℕ) (sat : EnhSat)
    (hk : sats.get? k = some sat)
    (hnone : lastAssoc signal_data sat.id = none) :
    (integrate_signal_quality parse sats signal_data).get? k = some sat := by
  unfold integrate_signal_quality
  rw [List.get?_map, hk]
  simp [hnone]

theorem integrate_get_hit (parse : String → Option ℤ) (sats : List EnhSat)
    (signal_data : List (String × List Stage5Point)) (k : ℕ) (sat : EnhSat)
    (pts : List Stage5Point)
    (hk : sats.get? k = some sat)
    (hpts : lastAssoc signal_data sat.id = some pts) :
    (integrate_signal_quality parse sats signal_data).get? k = some
      { sat with position_timeseries :=
          sat.position_timeseries.map (assignQuality parse (buildEntityIndex pts)) } := by
  unfold integrate_signal_quality
  rw [List.get?_map, hk]
  simp [hpts]

theorem bind_series_get (s : EnhSat) (g : EnhRecord → EnhRecord) (i : ℕ) (p : EnhRecord)
    (hp : s.position_timeseries.get? i = some p) :
    (some { s with position_timeseries := s.position_timeseries.map g } : Option EnhSat).bind
        (fun t => t.position_timeseries.get? i) = some (g p) := by
  show (s.position_timeseries.map g).get? i = some (g p)
  rw [List.get?_map, hp]
  rfl

/-- C3 counterexample: a non-visible sample of an entity absent from the
secondary source is passed through untouched — its quality sub-record is
absent (`none`), not the all-null sentinel. -/
theorem C3_counterexample :
    ((integrate_signal_quality c3parse [c3sat] c3sd).get? 0).bind
        (fun s => s.position_timeseries.get? 0) = some c3rec ∧
    c3rec.is_visible = false ∧
    c3rec.signal_quality = none ∧
    (none : Option SignalQuality) ≠ some nullQuality := by
  refine ⟨by with_unfolding_all rfl, rfl, rfl, by decide⟩

/-- C3 (amended): for every sample of an entity that is present in the
secondary source, positional `visible = false` forces the all-null
unavailable sentinel, whatever the secondary source holds for that entity
and timestamp; samples of entities absent from the secondary source are
left unchanged, with no quality sub-record. -/
theorem C3_invisible_sentinel (parse : String → Option ℤ) (sats : List EnhSat)
    (signal_data : List (String × List Stage5Point)) (k : ℕ) (sat : EnhSat)
    (i : ℕ) (p : EnhRecord)
    (hk : sats.get? k = some sat)
    (hp : sat.position_timeseries.get? i = some p)
    (hv : p.is_visible = false) :
    (∀ pts, lastAssoc signal_data sat.id = some pts →
      ((integrate_signal_quality parse sats signal_data).get? k).bind
          (fun s => s.position_timeseries.get? i) =
        some { p with signal_quality := some nullQuality }) ∧
    (lastAssoc signal_data sat.id = none →
      (integrate_signal_quality parse sats signal_data).get? k = some sat) := by
  constructor
  · intro pts hpts
    rw [integrate_get_hit parse sats signal_data k sat pts hk hpts]
    rw [bind_series_get sat (assignQuality parse (buildEntityIndex pts)) i p hp]
    simp [assignQuality, hv]
  · intro hnone
    exact integrate_get_skip parse sats signal_data k sat hk hnone

/-- C3 witness: a non-visible record of an entity the secondary source
does know (with a non-null quality at the very same timestamp) still gets
the all-null sentinel. -/
theorem C3_invisible_sentinel_witness :
    ((integrate_signal_quality c3parse [c3bsat] c3bsd).get? 0).bind
        (fun s => s.position_timeseries.get? 0) =
      some { c3brec with signal_quality := some nullQuality } := by
  have h := C3_invisible_sentinel c3parse [c3bsat] c3bsd 0 c3bsat 0 c3brec rfl rfl rfl
  exact h.1 _ (by with_unfolding_all rfl)

/-- C4: for a visible primary sample of an entity present in the
secondary source, alignment first tries the exact timestamp lookup and
merges its quality on success; when the exact lookup fails it merges the
quality of the first index entry, in scan order, whose parsed absolute
time difference is at most 30 seconds — even when a later entry is nearer
in time. -/
theorem C4_exact_then_first_fuzzy (parse : String → Option ℤ) (sats : List EnhSat)
    (signal_data : List (String × List Stage5Point)) (k : ℕ) (sat : EnhSat)
    (pts : List Stage5Point) (i : ℕ) (p : EnhRecord)
    (hk : sats.get? k = some sat)
    (hsd : lastAssoc signal_data sat.id = some pts)
    (hp : sat.position_timeseries.get? i = some p)
    (hv : p.is_visible = true) :
    (∀ sp, exactLookup (buildEntityIndex pts) p.time = some sp →
      ((integrate_signal_quality parse sats signal_data).get? k).bind
          (fun s => s.position_timeseries.get? i) =
        some { p with signal_quality := some sp.signal_quality }) ∧
    (exactLookup (buildEntityIndex pts) p.time = none →
      ∀ j q, (buildEntityIndex pts).get? j = some q →
        match_timestamps parse p.time q.1 = true →
        (∀ j' q', j' < j → (buildEntityIndex pts).get? j' = some q' →
          match_timestamps parse p.time q'.1 = false) →
        ((integrate_signal_quality parse sats signal_data).get? k).bind
            (fun s => s.position_timeseries.get? i) =
          some { p with signal_quality := some q.2.signal_quality }) := by
  have hbind : ((integrate_signal_quality parse sats signal_data).get? k).bind
      (fun s => s.position_timeseries.get? i) =
      some (assignQuality parse (buildEntityIndex pts) p) := by
    rw [integrate_get_hit parse sats signal_data k sat pts hk hsd]
    exact bind_series_get sat (assignQuality parse (buildEntityIndex pts)) i p hp
  constructor
  · intro sp hsp
    rw [hbind]
    simp [assignQuality, hv, hsp]
  · intro hnone j q hj hq hfirst
    have hfind : (buildEntityIndex pts).find?
        (fun e => match_timestamps parse p.time e.1) = some q :=
      find_first _ _ j q hj hq hfirst
    rw [hbind]
    simp [assignQuality, hv, hnone, hfind]

/-- C4 witness: primary timestamp `T` (second 1000) has no exact match;
candidates `T10` (second 1010) and `T5` (second 1005) are scanned in that
order, both within 30 seconds, and the first-scanned `T10` wins although
`T5` is nearer. -/
theorem C4_exact_then_first_fuzzy_witness :
    ((integrate_signal_quality c4parse [c4sat] c4sd).get? 0).bind
        (fun s => s.position_timeseries.get? 0) =
      some { c4rec with signal_quality := some c4q10 } ∧
    ((1005 : ℤ) - 1000).natAbs < ((1010 : ℤ) - 1000).natAbs := by
  have h := C4_exact_then_first_fuzzy c4parse [c4sat] c4sd 0 c4sat c4pts 0 c4rec
    rfl (by with_unfolding_all rfl) rfl rfl
  refine ⟨?_, by decide⟩
  have h2 := h.2 (by with_unfolding_all rfl) 0 ("T10", ⟨"T10", c4q10⟩)
    (by with_unfolding_all rfl) (by with_unfolding_all rfl)
    (fun j' q' hlt _ => absurd hlt (Nat.not_lt_zero _))
  exact h2.trans (by with_unfolding_all rfl)

/-! ### Coverage verification lemmas and claims (C5, C6) -/

theorem countVisibleAtE_eq (sats : List SatOutput) :
    ∀ (i : ℕ), (∀ s ∈ sats, i < s.position_timeseries.length) →
    countVisibleAtE sats i = some (visibleCountAt sats i) := by
  induction sats with
  | nil => intro i _; simp [countVisibleAtE, visibleCountAt]
  | cons s rest ih =>
      intro i h
      have hs : i < s.position_timeseries.length := h s (by simp)
      obtain ⟨p, hp⟩ : ∃ p, s.position_timeseries.get? i = some p := by
        rw [List.get?_eq_get hs]
        exact ⟨_, rfl⟩
      have hrest := ih i (fun s' hs' => h s' (by simp [hs']))
      have hp' : s.position_timeseries[i]? = some p := by
        rw [← List.get?_eq_getElem?]
        exact hp
      simp only [countVisibleAtE, hp, hrest]
      simp [visibleCountAt, List.countP_cons, hp']
      cases hb : p.is_visible <;> simp [hb, Nat.add_comm]

theorem optCounts_eq (sats : List SatOutput) :
    ∀ (idxs : List ℕ),
    (∀ i ∈ idxs, countVisibleAtE sats i = some (visibleCountAt sats i)) →
    optCounts sats idxs = some (idxs.map (visibleCountAt sats)) := by
  intro idxs
  induction idxs with
  | nil => intro _; rfl
  | cons i rest ih =>
      intro h
      simp only [optCounts, h i (by simp), ih (fun j hj => h j (by simp [hj])),
        List.map_cons]

theorem foldl_add_eq_sum (l : List ℕ) : ∀ (a : ℕ),
    l.foldl (fun x y => x + y) a = a + l.sum := by
  induction l with
  | nil => intro a; simp
  | cons b bs ih => intro a; simp [List.foldl_cons, ih, List.sum_cons]; omega

theorem min?_cons_foldl (c : ℕ) (cs : List ℕ) : (c :: cs).min? = some (cs.foldl min c) := rfl

theorem max?_cons_foldl (c : ℕ) (cs : List ℕ) : (c :: cs).max? = some (cs.foldl max c) := rfl

/-- C5 (code bug): on a non-empty entity set whose shared timeline length
is zero (reachable whenever the pool is non-empty but no satellite has a
single sample), `verify_coverage` computes `sum([]) / len([])` and raises
`ZeroDivisionError` — modelled by `none` — instead of degrading to a
guarded zero report; only the empty entity set takes the early bare
`return None`. -/
theorem C5_zero_timeline_divides :
    verify_coverage [c5degen] 30 = none ∧
    c5degen.config.time_points = 0 ∧
    verify_coverage [] 30 = some none :=
  ⟨rfl, rfl, rfl⟩

/-- C6: for a non-empty entity set with a positive timeline length (and
series long enough to be indexed at every timestep), `verify_coverage`
reports exactly: average = arithmetic mean of the per-timestep visible
counts, min/max = their minimum/maximum, and achievement rate = number of
timesteps whose count lies in the inclusive band [10, 15] divided by the
total number of timesteps. -/
theorem C6_coverage_stats (sats : List SatOutput) (s0 : SatOutput) (rest : List SatOutput)
    (step : ℤ) (hs : sats = s0 :: rest) (hn : 0 < s0.config.time_points)
    (hlen : ∀ s ∈ sats, s0.config.time_points ≤ s.position_timeseries.length) :
    verify_coverage sats step = some (some
      { avg_visible :=
          ((((List.range s0.config.time_points).map (visibleCountAt sats)).sum : ℕ) : ℚ) /
            ((s0.config.time_points : ℕ) : ℚ)
        min_visible :=
          (((List.range s0.config.time_points).map (visibleCountAt sats)).min?).getD 0
        max_visible :=
          (((List.range s0.config.time_points).map (visibleCountAt sats)).max?).getD 0
        target_met_rate :=
          ((((List.range s0.config.time_points).map (visibleCountAt sats)).filter
              (fun c => decide (10 ≤ c ∧ c ≤ 15))).length : ℚ) /
            ((s0.config.time_points : ℕ) : ℚ) }) := by
  subst hs
  have hcnt : ∀ i ∈ List.range s0.config.time_points,
      countVisibleAtE (s0 :: rest) i = some (visibleCountAt (s0 :: rest) i) := by
    intro i hi
    exact countVisibleAtE_eq (s0 :: rest) i
      (fun s hs' => lt_of_lt_of_le (List.mem_range.mp hi) (hlen s hs'))
  have hopt := optCounts_eq (s0 :: rest) (List.range s0.config.time_points) hcnt
  obtain ⟨c, cs, hcs⟩ : ∃ c cs,
      (List.range s0.config.time_points).map (visibleCountAt (s0 :: rest)) = c :: cs := by
    cases hm : (List.range s0.config.time_points).map (visibleCountAt (s0 :: rest)) with
    | nil =>
        exfalso
        have hl := congrArg List.length hm
        simp at hl
        omega
    | cons c cs => exact ⟨c, cs, rfl⟩
  rw [hcs] at hopt
  have hlen2 : (c :: cs).length = s0.config.time_points := by
    have hl := congrArg List.length hcs
    simpa using hl.symm
  simp only [verify_coverage, hopt]
  rw [hcs]
  simp only [Option.some.injEq, CoverageStats.mk.injEq]
  refine ⟨?_, ?_, ?_, trivial⟩
  · rw [foldl_add_eq_sum, hlen2]
    simp
  · rw [min?_cons_foldl]
    rfl
  · rw [max?_cons_foldl]
    rfl

/-- C6 witness: for the two concrete reconstructed satellites over three
timesteps the counts are `[1, 0, 1]`, so the report is
`avg = 2/3, min = 0, max = 1, rate = 0`. -/
theorem C6_coverage_stats_witness :
    verify_coverage [wOutA, wOutB] 30 = some (some ⟨2/3, 0, 1, 0⟩) := by
  have h := C6_coverage_stats [wOutA, wOutB] wOutA [wOutB] 30 rfl
    (by decide) (by with_unfolding_all decide)
  exact h.trans (by with_unfolding_all rfl)

end LeoSim
